import Mathlib

/-!
Verification of the rule-based potability evaluator of `src/ai/ml_server.py`
(repository RyzenJP/sanitary).

The evaluator `get_potability_recommendation(tds_value, turbidity_value,
temperature, ph_level)` is a pure function of four numbers plus the global
flag `models_loaded`.  Python floats are embedded as rationals (ℚ): every
comparison made by the code is against the exactly representable constants
500, 600, 900, 1200, 1.0, 5.0, 10, 50, so the order relations used by the
code agree between float and rational semantics for the inputs considered.
Strings are embedded as Lean `String`s, Python lists as Lean `List`s, the
`{status: success, ...} / {status: error, message}` dictionary shapes as an
inductive `Result`.
-/

namespace MLServer

/-- Python's builtin `min` on two numbers: the first argument when the two
are equal.  Used instead of Mathlib's lattice `min` so that the embedding
reduces by kernel computation; `pymin_eq_min` below shows the two agree. -/
def pymin (a b : ℚ) : ℚ := if a ≤ b then a else b

/-- Python's builtin `max` on two numbers (see `pymin`). -/
def pymax (a b : ℚ) : ℚ := if b ≤ a then a else b

theorem pymin_eq_min (a b : ℚ) : pymin a b = min a b := by
  simp [pymin, min_def]

theorem pymax_eq_max (a b : ℚ) : pymax a b = max a b := by
  simp only [pymax, max_def]
  rcases le_or_lt a b with h | h
  · rcases eq_or_lt_of_le h with rfl | h'
    · simp
    · rw [if_neg (not_le.mpr h'), if_pos h]
  · rw [if_pos h.le, if_neg (not_le.mpr h)]

/-- The `who_compliance` sub-dictionary of a success result
(ml_server.py lines 169-173). -/
structure WhoCompliance where
  tds_compliant : Bool
  turbidity_compliant : Bool
  overall_compliant : Bool
deriving Repr, DecidableEq

/-- The `parameters` sub-dictionary echoing the four inputs
(ml_server.py lines 174-179). -/
structure Parameters where
  tds_value : ℚ
  turbidity_value : ℚ
  temperature : ℚ
  ph_level : ℚ
deriving Repr, DecidableEq

/-- The `who_guidelines` sub-dictionary (ml_server.py lines 180-183). -/
structure WhoGuidelines where
  tds_limit : ℚ
  turbidity_limit : ℚ
deriving Repr, DecidableEq

/-- The `ai_info` sub-dictionary (ml_server.py lines 184-188). -/
structure AiInfo where
  model_version : String
  training_date : String
  accuracy : String
deriving Repr, DecidableEq

/-- The fields of a `{status: 'success', ...}` dictionary returned by
`get_potability_recommendation` (ml_server.py lines 161-189), minus the
`status` tag which is carried by the `Result` constructor. -/
structure SuccessResult where
  potability_status : String
  potability_score : ℚ
  confidence : ℚ
  risk_level : String
  recommendation : String
  action_required : String
  who_compliance : WhoCompliance
  parameters : Parameters
  who_guidelines : WhoGuidelines
  ai_info : AiInfo
deriving Repr, DecidableEq

/-- Return value of `get_potability_recommendation`: either a full success
dictionary or `{status: 'error', message}` with no other fields. -/
inductive Result where
  | success (r : SuccessResult)
  | error (message : String)
deriving Repr, DecidableEq

/-- Body of the `try:` block of `get_potability_recommendation`
(ml_server.py lines 85-189).  The body is pure arithmetic, comparisons and
string joins, so in this embedding it is a total function to
`SuccessResult`.  Each `let` mirrors one assignment of the source;
rebindings mirror Python's mutation of the same variable.  In the source
`risk_level` starts unbound and is assigned `'High'` by each issue branch;
this is mirrored by an `Option String` that starts `none`, and the
`.getD "High"` in the non-empty-issues branch is only ever consulted with
the option already `some "High"` (the source guarantees `risk_level` is
bound exactly when `issues` is non-empty). -/
def evaluate (tds_value turbidity_value temperature ph_level : ℚ) :
    SuccessResult :=
  -- WHO Guidelines (lines 87-88)
  let tds_limit : ℚ := 500
  let turbidity_limit : ℚ := 1  -- 1.0 in the source
  -- Calculate compliance (lines 91-92)
  let tds_compliant : Bool := decide (tds_value ≤ tds_limit)
  let turbidity_compliant : Bool := decide (turbidity_value ≤ turbidity_limit)
  -- Rule-based classification (lines 96-99)
  let potability_status : String :=
    if tds_compliant && turbidity_compliant then "Potable" else "Not Potable"
  -- Score (lines 103-123)
  let potability_score : ℚ := 100  -- 100.0 in the source
  let potability_score : ℚ :=
    if tds_value > 1200 then potability_score - 50
    else if tds_value > 900 then potability_score - 45
    else if tds_value > 600 then potability_score - 40
    else if tds_value > 500 then potability_score - 35
    else potability_score
  let potability_score : ℚ :=
    if turbidity_value > 50 then potability_score - 50
    else if turbidity_value > 10 then potability_score - 45
    else if turbidity_value > 5 then potability_score - 40
    else if turbidity_value > 1 then potability_score - 35  -- 1.0 in the source
    else potability_score
  -- Clamp (line 126)
  let potability_score : ℚ := pymax 0 (pymin 100 potability_score)  -- max(0.0, min(100.0, s))
  -- Issue / action aggregation (lines 129-146)
  let issues : List String := []
  let actions : List String := []
  let step1 : List String × List String × Option String :=
    if tds_value > 500 then
      (issues ++ ["Water is NOT potable. TDS exceeds WHO limit. Consider treatment like filtration or chemical disinfection."],
       actions ++ ["TDS treatment required"],
       some "High")
    else (issues, actions, none)
  let issues := step1.1
  let actions := step1.2.1
  let risk_after_tds := step1.2.2
  let step2 : List String × List String × Option String :=
    if turbidity_value > 5 then  -- 5.0 in the source
      (issues ++ ["High Turbidity: May contain pathogens, use sediment filters."],
       actions ++ ["Sediment filtration required"],
       some "High")
    else if turbidity_value > 1 then  -- 1.0 in the source
      (issues ++ ["High Turbidity: May contain pathogens, use sediment filters."],
       actions ++ ["Sediment filtration required"],
       some "High")
    else (issues, actions, risk_after_tds)
  let issues := step2.1
  let actions := step2.2.1
  let risk_after_turbidity := step2.2.2
  -- Final recommendation (lines 149-156)
  let final : String × String × String :=
    if issues.isEmpty then
      ("Low", "Water is POTABLE. No immediate action needed.", "None")
    else
      (risk_after_turbidity.getD "High",
       String.intercalate " " issues,
       String.intercalate ", " actions)
  -- Confidence (line 159) and result dictionary (lines 161-189)
  { potability_status := potability_status
    potability_score := potability_score
    confidence := 17/20  -- 0.85 in the source
    risk_level := final.1
    recommendation := final.2.1
    action_required := final.2.2
    who_compliance :=
      { tds_compliant := tds_compliant
        turbidity_compliant := turbidity_compliant
        overall_compliant := tds_compliant && turbidity_compliant }
    parameters :=
      { tds_value := tds_value
        turbidity_value := turbidity_value
        temperature := temperature
        ph_level := ph_level }
    who_guidelines :=
      { tds_limit := tds_limit
        turbidity_limit := turbidity_limit }
    ai_info :=
      { model_version := "1.0"
        training_date := "2024-10-21"
        accuracy := "99.5%" } }

/-- `get_potability_recommendation` (ml_server.py lines 76-195): the
models-loaded guard (lines 79-83) followed by the `try:` body.  The body
(`evaluate`) is total in this embedding, so the `except` branch building
`'AI prediction failed: ' + str(e)` (lines 191-195) is unreachable. -/
def get_potability_recommendation (models_loaded : Bool)
    (tds_value turbidity_value temperature ph_level : ℚ) : Result :=
  if !models_loaded then
    Result.error "AI models not loaded. Please train models first."
  else
    Result.success (evaluate tds_value turbidity_value temperature ph_level)

/-- TDS deduction band as the spec states it: first matching band wins,
at most one deduction per parameter (spec §4.1, score computation). -/
def tds_deduction (tds : ℚ) : ℚ :=
  if tds > 1200 then 50
  else if tds > 900 then 45
  else if tds > 600 then 40
  else if tds > 500 then 35
  else 0

/-- Turbidity deduction band as the spec states it (spec §4.1). -/
def turbidity_deduction (turbidity : ℚ) : ℚ :=
  if turbidity > 50 then 50
  else if turbidity > 10 then 45
  else if turbidity > 5 then 40
  else if turbidity > 1 then 35
  else 0

/-- Issue messages in append order as the code produces them: the TDS issue
first (line 133), then the turbidity issue (lines 139-146; both turbidity
branches append the same text, so a single string covers them). -/
def issue_messages (tds turbidity : ℚ) : List String :=
  (if tds > 500 then ["Water is NOT potable. TDS exceeds WHO limit. Consider treatment like filtration or chemical disinfection."] else [])
  ++ (if turbidity > 1 then ["High Turbidity: May contain pathogens, use sediment filters."] else [])

/-- Action labels in append order (lines 135, 141, 145). -/
def action_labels (tds turbidity : ℚ) : List String :=
  (if tds > 500 then ["TDS treatment required"] else [])
  ++ (if turbidity > 1 then ["Sediment filtration required"] else [])

/-! Helper lemmas shared by the claim theorems. -/

theorem tds_deduction_nonneg (tds : ℚ) : 0 ≤ tds_deduction tds := by
  unfold tds_deduction; split_ifs <;> norm_num

theorem turbidity_deduction_nonneg (turbidity : ℚ) :
    0 ≤ turbidity_deduction turbidity := by
  unfold turbidity_deduction; split_ifs <;> norm_num

theorem tds_deduction_ge_35 (tds : ℚ) (h : 500 < tds) :
    35 ≤ tds_deduction tds := by
  unfold tds_deduction; split_ifs <;> linarith

theorem turbidity_deduction_ge_35 (turbidity : ℚ) (h : 1 < turbidity) :
    35 ≤ turbidity_deduction turbidity := by
  unfold turbidity_deduction; split_ifs <;> linarith

theorem tds_deduction_eq_zero (tds : ℚ) (h : tds ≤ 500) :
    tds_deduction tds = 0 := by
  unfold tds_deduction; split_ifs <;> linarith

theorem turbidity_deduction_eq_zero (turbidity : ℚ) (h : turbidity ≤ 1) :
    turbidity_deduction turbidity = 0 := by
  unfold turbidity_deduction; split_ifs <;> linarith

theorem evaluate_score_eq (tds turbidity temperature ph : ℚ) :
    (evaluate tds turbidity temperature ph).potability_score
      = pymax 0 (pymin 100 (100 - tds_deduction tds - turbidity_deduction turbidity)) := by
  simp only [evaluate, tds_deduction, turbidity_deduction]
  split_ifs <;> norm_num

theorem evaluate_status_eq (tds turbidity temperature ph : ℚ) :
    (evaluate tds turbidity temperature ph).potability_status
      = if tds ≤ 500 ∧ turbidity ≤ 1 then "Potable" else "Not Potable" := by
  by_cases h1 : tds ≤ 500 <;> by_cases h2 : turbidity ≤ 1 <;>
    simp [evaluate, h1, h2]

theorem evaluate_final_eq (tds turbidity temperature ph : ℚ) :
    (evaluate tds turbidity temperature ph).risk_level
        = (if (issue_messages tds turbidity).isEmpty then "Low" else "High") ∧
    (evaluate tds turbidity temperature ph).recommendation
        = (if (issue_messages tds turbidity).isEmpty
            then "Water is POTABLE. No immediate action needed."
            else String.intercalate " " (issue_messages tds turbidity)) ∧
    (evaluate tds turbidity temperature ph).action_required
        = (if (issue_messages tds turbidity).isEmpty
            then "None"
            else String.intercalate ", " (action_labels tds turbidity)) := by
  by_cases h1 : (500:ℚ) < tds <;> by_cases h2 : (5:ℚ) < turbidity <;>
    by_cases h3 : (1:ℚ) < turbidity
  all_goals first
    | exact absurd (lt_trans (by norm_num) h2) h3
    | simp [evaluate, issue_messages, action_labels, h1, h2, h3]

theorem issue_messages_eq_nil_iff (tds turbidity : ℚ) :
    issue_messages tds turbidity = [] ↔ (tds ≤ 500 ∧ turbidity ≤ 1) := by
  by_cases h1 : (500:ℚ) < tds <;> by_cases h3 : (1:ℚ) < turbidity <;>
    simp [issue_messages, h1, h3, not_lt.mp, le_of_not_lt]

/-! Claim theorems. -/

/-- C1: for every pair of numeric inputs, the success result of
`get_potability_recommendation` has `tds_compliant = (tds ≤ 500)`,
`turbidity_compliant = (turbidity ≤ 1.0)`,
`overall_compliant = tds_compliant AND turbidity_compliant`, and
`potability_status = "Potable"` iff `overall_compliant`
(else `"Not Potable"`). -/
theorem compliance_flags_and_verdict (tds turbidity temperature ph : ℚ) :
    get_potability_recommendation true tds turbidity temperature ph
      = Result.success (evaluate tds turbidity temperature ph) ∧
    (evaluate tds turbidity temperature ph).who_compliance.tds_compliant
      = decide (tds ≤ 500) ∧
    (evaluate tds turbidity temperature ph).who_compliance.turbidity_compliant
      = decide (turbidity ≤ 1) ∧
    (evaluate tds turbidity temperature ph).who_compliance.overall_compliant
      = ((evaluate tds turbidity temperature ph).who_compliance.tds_compliant
          && (evaluate tds turbidity temperature ph).who_compliance.turbidity_compliant) ∧
    ((evaluate tds turbidity temperature ph).potability_status = "Potable"
      ↔ (evaluate tds turbidity temperature ph).who_compliance.overall_compliant = true) ∧
    ((evaluate tds turbidity temperature ph).potability_status = "Not Potable"
      ↔ ¬ ((evaluate tds turbidity temperature ph).who_compliance.overall_compliant = true)) := by
  refine ⟨rfl, rfl, rfl, rfl, ?_, ?_⟩ <;>
    by_cases h1 : tds ≤ 500 <;> by_cases h2 : turbidity ≤ 1 <;>
      simp [evaluate, h1, h2]

/-- C2: for every pair of numeric inputs, `potability_score` equals
`clamp(100 - tds_deduction - turbidity_deduction, 0, 100)` where the two
deductions are chosen first-match-wins from the severity bands, each
parameter contributing at most one deduction. -/
theorem score_eq_clamped_deductions (tds turbidity temperature ph : ℚ) :
    (evaluate tds turbidity temperature ph).potability_score
      = max 0 (min 100 (100 - tds_deduction tds - turbidity_deduction turbidity)) := by
  rw [evaluate_score_eq, pymax_eq_max, pymin_eq_min]

/-- C3: whenever `tds > 500` or `turbidity > 1.0`, the result is
`"Not Potable"` with `potability_score ≤ 65`, because the violated
parameter deducts at least 35 points. -/
theorem violation_not_potable_score_le_65 (tds turbidity temperature ph : ℚ)
    (h : 500 < tds ∨ 1 < turbidity) :
    (evaluate tds turbidity temperature ph).potability_status = "Not Potable" ∧
    (evaluate tds turbidity temperature ph).potability_score ≤ 65 := by
  constructor
  · rw [evaluate_status_eq, if_neg]
    rintro ⟨h1, h2⟩
    rcases h with h | h <;> linarith
  · rw [evaluate_score_eq, pymax_eq_max, pymin_eq_min]
    have hsum : 35 ≤ tds_deduction tds + turbidity_deduction turbidity := by
      rcases h with h | h
      · have := tds_deduction_ge_35 tds h
        have := turbidity_deduction_nonneg turbidity
        linarith
      · have := turbidity_deduction_ge_35 turbidity h
        have := tds_deduction_nonneg tds
        linarith
    exact max_le (by norm_num) ((min_le_right _ _).trans (by linarith))

/-- Witness for C3 at the concrete input `(tds, turbidity) = (600, 0)`. -/
theorem violation_not_potable_score_le_65_witness :
    (evaluate 600 0 25 7).potability_status = "Not Potable" ∧
    (evaluate 600 0 25 7).potability_score ≤ 65 :=
  violation_not_potable_score_le_65 600 0 25 7 (Or.inl (by decide))

/-- C4: whenever `tds ≤ 500` and `turbidity ≤ 1.0` (boundaries included),
the result is `Potable` with score 100, `risk_level = "Low"`,
`action_required = "None"` and the clean-bill recommendation. -/
theorem compliant_perfect_result (tds turbidity temperature ph : ℚ)
    (h1 : tds ≤ 500) (h2 : turbidity ≤ 1) :
    (evaluate tds turbidity temperature ph).potability_status = "Potable" ∧
    (evaluate tds turbidity temperature ph).potability_score = 100 ∧
    (evaluate tds turbidity temperature ph).risk_level = "Low" ∧
    (evaluate tds turbidity temperature ph).action_required = "None" ∧
    (evaluate tds turbidity temperature ph).recommendation
      = "Water is POTABLE. No immediate action needed." := by
  have hnil : issue_messages tds turbidity = [] :=
    (issue_messages_eq_nil_iff tds turbidity).mpr ⟨h1, h2⟩
  obtain ⟨hr, hrec, hact⟩ := evaluate_final_eq tds turbidity temperature ph
  refine ⟨?_, ?_, ?_, ?_, ?_⟩
  · rw [evaluate_status_eq, if_pos ⟨h1, h2⟩]
  · rw [evaluate_score_eq, tds_deduction_eq_zero tds h1,
      turbidity_deduction_eq_zero turbidity h2]
    norm_num [pymax, pymin]
  · rw [hr, hnil]; rfl
  · rw [hact, hnil]; rfl
  · rw [hrec, hnil]; rfl

/-- Witness for C4 at the exact boundary `(tds, turbidity) = (500, 1.0)`. -/
theorem compliant_perfect_result_witness :
    (evaluate 500 1 25 7).potability_status = "Potable" ∧
    (evaluate 500 1 25 7).potability_score = 100 ∧
    (evaluate 500 1 25 7).risk_level = "Low" ∧
    (evaluate 500 1 25 7).action_required = "None" ∧
    (evaluate 500 1 25 7).recommendation
      = "Water is POTABLE. No immediate action needed." :=
  compliant_perfect_result 500 1 25 7 (by decide) (by decide)

/-- C5 counterexample: at `tds = 600`, `turbidity = 0.8` the claim
"`potability_score = 60` with a 40-point TDS deduction" is false: the code
takes the `tds_value > 500` band (since `600 > 600` fails), deducting 35,
so the score is 65, not 60. -/
theorem tds_600_claim_false :
    ¬ ((evaluate 600 (4/5) 25 7).potability_status = "Not Potable" ∧
       (evaluate 600 (4/5) 25 7).potability_score = 60 ∧
       tds_deduction 600 = 40) := by
  rintro ⟨-, h, -⟩
  norm_num [evaluate, pymin, pymax] at h

/-- C5 amended: for `tds = 600`, `turbidity = 0.8` the result is
`"Not Potable"` with a 35-point TDS deduction and score 65. -/
theorem tds_600_actual_result :
    (evaluate 600 (4/5) 25 7).potability_status = "Not Potable" ∧
    (evaluate 600 (4/5) 25 7).potability_score = 65 ∧
    tds_deduction 600 = 35 := by
  refine ⟨?_, ?_, ?_⟩ <;> norm_num [evaluate, tds_deduction, pymin, pymax]

theorem action_labels_join_ne_none (tds turbidity : ℚ) :
    String.intercalate ", " (action_labels tds turbidity) ≠ "None" := by
  unfold action_labels
  by_cases h1 : (500:ℚ) < tds <;> by_cases h3 : (1:ℚ) < turbidity <;>
    simp [h1, h3] <;> decide

/-- C6 counterexample: the claim that the `AI prediction failed: <cause>`
dictionary is the only error form ever returned is false: with
`models_loaded = false` the function returns the distinct error message
`AI models not loaded. Please train models first.`, which is not of the
form `AI prediction failed: <cause>`. -/
theorem not_loaded_error_second_form :
    get_potability_recommendation false 350 (4/5) 25 7
      = Result.error "AI models not loaded. Please train models first." ∧
    ¬ ∃ cause : String,
        "AI models not loaded. Please train models first."
          = "AI prediction failed: " ++ cause := by
  refine ⟨rfl, ?_⟩
  rintro ⟨cause, h⟩
  have hp : "AI prediction failed: ".data
      <+: "AI models not loaded. Please train models first.".data :=
    ⟨cause.data, by rw [← String.data_append, ← h]⟩
  exact absurd hp (by decide)

/-- C6 amended: every error result carries one of the two documented
messages; since the embedded rule evaluation is total, the only error the
function actually returns is the models-not-loaded one (the `except`
branch mapping an internal exception to `AI prediction failed: <cause>`
is unreachable), and it occurs exactly when `models_loaded` is false. -/
theorem error_form_unique (models_loaded : Bool)
    (tds turbidity temperature ph : ℚ) (m : String)
    (h : get_potability_recommendation models_loaded tds turbidity temperature ph
          = Result.error m) :
    models_loaded = false ∧
    m = "AI models not loaded. Please train models first." := by
  cases models_loaded
  · simp only [get_potability_recommendation, Bool.not_false, if_true,
      Result.error.injEq] at h
    exact ⟨rfl, h.symm⟩
  · simp [get_potability_recommendation] at h

/-- Witness for C6's amended theorem at `models_loaded = false`,
`(tds, turbidity, temperature, ph) = (350, 0.8, 25, 7)`. -/
theorem error_form_unique_witness :
    false = false ∧
    "AI models not loaded. Please train models first."
      = "AI models not loaded. Please train models first." :=
  error_form_unique false 350 (4/5) 25 7
    "AI models not loaded. Please train models first." rfl

/-- C7: on a success result with at least one issue, `recommendation` is
the space-join of the issue messages appended in order (TDS issue first,
then the turbidity issue) and `action_required` is the comma-join of the
action labels in the same order.  `issue_messages`/`action_labels`
contain a single turbidity entry because the two turbidity branches of
the source (`> 5.0` and `> 1.0`) append byte-identical text, which is
what makes this single-list description of the append order correct for
every turbidity value. -/
theorem issue_order_and_joins (tds turbidity temperature ph : ℚ)
    (h : issue_messages tds turbidity ≠ []) :
    (evaluate tds turbidity temperature ph).recommendation
      = String.intercalate " " (issue_messages tds turbidity) ∧
    (evaluate tds turbidity temperature ph).action_required
      = String.intercalate ", " (action_labels tds turbidity) := by
  obtain ⟨-, hrec, hact⟩ := evaluate_final_eq tds turbidity temperature ph
  have hne : (issue_messages tds turbidity).isEmpty = false := by
    cases hi : issue_messages tds turbidity
    · exact absurd hi h
    · rfl
  rw [hrec, hact]
  simp [hne]

/-- Witness for C7 at `(tds, turbidity) = (600, 2)`, where both issues
trigger. -/
theorem issue_order_and_joins_witness :
    (evaluate 600 2 25 7).recommendation
      = String.intercalate " " (issue_messages 600 2) ∧
    (evaluate 600 2 25 7).action_required
      = String.intercalate ", " (action_labels 600 2) :=
  issue_order_and_joins 600 2 25 7 (by decide)

/-- C8: `temperature` and `ph_level` do not influence the evaluation:
two calls agreeing on `tds` and `turbidity` produce results identical in
every field except the echoed `parameters.temperature` and
`parameters.ph_level`. -/
theorem temperature_ph_noninterference (tds turbidity t1 p1 t2 p2 : ℚ) :
    (evaluate tds turbidity t1 p1).potability_status
      = (evaluate tds turbidity t2 p2).potability_status ∧
    (evaluate tds turbidity t1 p1).potability_score
      = (evaluate tds turbidity t2 p2).potability_score ∧
    (evaluate tds turbidity t1 p1).confidence
      = (evaluate tds turbidity t2 p2).confidence ∧
    (evaluate tds turbidity t1 p1).risk_level
      = (evaluate tds turbidity t2 p2).risk_level ∧
    (evaluate tds turbidity t1 p1).recommendation
      = (evaluate tds turbidity t2 p2).recommendation ∧
    (evaluate tds turbidity t1 p1).action_required
      = (evaluate tds turbidity t2 p2).action_required ∧
    (evaluate tds turbidity t1 p1).who_compliance
      = (evaluate tds turbidity t2 p2).who_compliance ∧
    (evaluate tds turbidity t1 p1).who_guidelines
      = (evaluate tds turbidity t2 p2).who_guidelines ∧
    (evaluate tds turbidity t1 p1).ai_info
      = (evaluate tds turbidity t2 p2).ai_info ∧
    (evaluate tds turbidity t1 p1).parameters.tds_value
      = (evaluate tds turbidity t2 p2).parameters.tds_value ∧
    (evaluate tds turbidity t1 p1).parameters.turbidity_value
      = (evaluate tds turbidity t2 p2).parameters.turbidity_value :=
  ⟨rfl, rfl, rfl, rfl, rfl, rfl, rfl, rfl, rfl, rfl, rfl⟩

/-- C9: when the `models_loaded` flag is false the function returns the
models-not-loaded error for every input, before any compliance or scoring
computation; with the flag true it returns the evaluated success result,
so the result genuinely depends on the flag. -/
theorem models_not_loaded_guard (tds turbidity temperature ph : ℚ) :
    get_potability_recommendation false tds turbidity temperature ph
      = Result.error "AI models not loaded. Please train models first." ∧
    get_potability_recommendation true tds turbidity temperature ph
      = Result.success (evaluate tds turbidity temperature ph) ∧
    get_potability_recommendation false tds turbidity temperature ph
      ≠ get_potability_recommendation true tds turbidity temperature ph :=
  ⟨rfl, rfl, fun h => Result.noConfusion h⟩

/-- C10: in every success result, `risk_level = "High"` iff
`potability_status = "Not Potable"`, `risk_level = "Low"` iff the verdict
is `"Potable"`, iff `action_required = "None"`: the issue-triggering
conditions `tds > 500` and `turbidity > 1.0` are exactly the negations of
the compliance conditions. -/
theorem risk_level_iff_verdict (tds turbidity temperature ph : ℚ) :
    ((evaluate tds turbidity temperature ph).risk_level = "High"
      ↔ (evaluate tds turbidity temperature ph).potability_status = "Not Potable") ∧
    ((evaluate tds turbidity temperature ph).risk_level = "Low"
      ↔ (evaluate tds turbidity temperature ph).potability_status = "Potable") ∧
    ((evaluate tds turbidity temperature ph).potability_status = "Potable"
      ↔ (evaluate tds turbidity temperature ph).action_required = "None") := by
  obtain ⟨hr, -, hact⟩ := evaluate_final_eq tds turbidity temperature ph
  rw [hr, hact, evaluate_status_eq]
  by_cases hc : tds ≤ 500 ∧ turbidity ≤ 1
  · have hnil : issue_messages tds turbidity = [] :=
      (issue_messages_eq_nil_iff tds turbidity).mpr hc
    rw [if_pos hc, hnil]
    simp
  · have hnil : issue_messages tds turbidity ≠ [] :=
      fun hh => hc ((issue_messages_eq_nil_iff tds turbidity).mp hh)
    have hne : (issue_messages tds turbidity).isEmpty = false := by
      cases hi : issue_messages tds turbidity
      · exact absurd hi hnil
      · rfl
    rw [if_neg hc]
    simp [hne, action_labels_join_ne_none tds turbidity]

end MLServer
